import Mathlib

/-!
Verification of the Multi-Source Research Pipeline backend
(`deep-research-MAF`, Python) against its natural-language specification,
via a shallow embedding of the relevant source functions in Lean 4.

The text-generation capability (`AzureOpenAIService.chat_completion`
followed by `extract_text`) is modelled as an oracle
`llm : String → ℚ → Except String String`: it receives the single user
message's content and the temperature, and either returns the extracted
text or fails with an error message (a raised exception in Python).
Python dictionaries produced as tool results are modelled as Lean
structures whose optional fields are `Option`-typed.
-/

namespace DeepResearch

/-- Oracle modelling the text-generation capability: prompt and
temperature in, generated text or a provider error out. -/
def LLM : Type := String → ℚ → Except String String

/-- Python `str.strip()`, at the character level: drop whitespace
characters from both ends of the string. -/
def pyStrip (s : String) : String :=
  String.mk (((s.data.dropWhile Char.isWhitespace).reverse.dropWhile
    Char.isWhitespace).reverse)

/-- Python `str.split('\n')`: split the string at every newline
character. -/
def splitNewlines (s : String) : List String :=
  (s.data.splitOn '\n').map String.mk

/-- One entry of the `search_results: list[dict]` argument of
`synthesize_answer`.  Each field may be absent from the dict, in which
case `dict.get` supplies the default recorded in the source. -/
structure ResultDict where
  title? : Option String
  url? : Option String
  snippet? : Option String
deriving Repr, DecidableEq

/-- One entry of the `sources` list built by `synthesize_answer`
(`{"index": i, "title": ..., "url": ..., "snippet": snippet[:200]}`). -/
structure SourceEntry where
  index : Nat
  title : String
  url : String
  snippet : String
deriving Repr, DecidableEq

/-- The dict returned by `synthesize_answer` in `tools.py`.  The keys
`sources_count` and `confidence` appear only on the success path and the
key `error` only on the two non-success paths, so they are `Option`s. -/
structure SynthesizeResult where
  query : String
  content : String
  sources : List SourceEntry
  sources_count : Option Nat
  confidence : Option ℚ
  error : Option String
deriving Repr, DecidableEq

/-- The loop body of `synthesize_answer`
(`for i, result in enumerate(search_results[:10], 1): ...`), started at
index `i`: for each dict it emits the context part
`f"[{i}] {title}\n{snippet}"` and the source entry with the snippet
truncated to its first 200 characters. -/
def buildEntries : Nat → List ResultDict → List (String × SourceEntry)
  | _, [] => []
  | i, r :: rs =>
    let title := r.title?.getD "Unknown"
    let snippet := r.snippet?.getD ""
    let url := r.url?.getD ""
    ("[" ++ toString i ++ "] " ++ title ++ "\n" ++ snippet,
      { index := i, title := title, url := url, snippet := snippet.take 200 })
      :: buildEntries (i + 1) rs

/-- The context block `"\n\n".join(context_parts)` built from the first
ten search results. -/
def synthesisContext (search_results : List ResultDict) : String :=
  String.intercalate "\n\n" ((buildEntries 1 (search_results.take 10)).map Prod.fst)

/-- The synthesis prompt of `synthesize_answer` (the f-string
`synthesis_prompt` in `tools.py`). -/
def synthesisPrompt (query : String) (context : String) : String :=
  "Based on the following search results, provide a comprehensive answer to the research question.\nInclude citations using [n] format to reference the sources.\n\nResearch Question: "
    ++ query
    ++ "\n\nSearch Results:\n"
    ++ context
    ++ "\n\nProvide a well-structured answer with:\n1. A clear introduction\n2. Main findings and details\n3. A brief conclusion\n4. Use [n] citations to reference sources\n\nAnswer:"

/-- Shallow embedding of `synthesize_answer` (`src/backend/src/agui/tools.py`).
`search_results = None` defaults to the empty list; an empty list
short-circuits with the fixed "no information" content; otherwise the
first ten results are turned into the context block and the sources
list, the oracle is invoked once at temperature 0.5, and on success the
answer is returned with the fixed confidence `0.85`; an oracle failure
is caught and reported through the `error` field. -/
def synthesize_answer (llm : LLM) (query : String)
    (search_results : Option (List ResultDict)) : SynthesizeResult :=
  let rs := search_results.getD []
  if rs = [] then
    { query := query
      error := some "No search results provided"
      content := "I couldn't find relevant information to answer your question."
      sources := []
      sources_count := none
      confidence := none }
  else
    let entries := buildEntries 1 (rs.take 10)
    let sources := entries.map Prod.snd
    let context := String.intercalate "\n\n" (entries.map Prod.fst)
    match llm (synthesisPrompt query context) (1 / 2) with
    | Except.ok answer_content =>
      { query := query
        content := pyStrip answer_content
        sources := sources
        sources_count := some sources.length
        confidence := some (85 / 100)
        error := none }
    | Except.error e =>
      { query := query
        error := some e
        content := "An error occurred while synthesizing the answer."
        sources := []
        sources_count := none
        confidence := none }

/-- One search step of the plan dict built by `create_research_plan`
(`{"description": ..., "keywords": ..., "sources": ...}`). -/
structure PlanStep where
  description : String
  keywords : List String
  sources : List String
deriving Repr, DecidableEq

/-- The dict returned by `create_research_plan`.  `strategy` appears
only on the success path and `error` only on the failure path. -/
structure PlanResult where
  query : String
  strategy : Option String
  keywords : List String
  search_steps : List PlanStep
  sources : List String
  error : Option String
deriving Repr, DecidableEq

/-- The keyword prompt of `create_research_plan` (f-string
`keyword_prompt` in `tools.py`). -/
def keywordPrompt (query : String) : String :=
  "Analyze this research question and generate 5-8 relevant search keywords:\n\nQuestion: "
    ++ query
    ++ "\n\nReturn only the keywords, one per line, no numbering or bullets."

/-- The strategy prompt of `create_research_plan` (f-string
`strategy_prompt` in `tools.py`). -/
def strategyPrompt (query : String) (keywords : List String) : String :=
  "Create a brief research strategy summary (2-3 sentences) for this question:\nQuestion: "
    ++ query
    ++ "\nKeywords: "
    ++ String.intercalate ", " keywords

/-- The keyword parsing of `create_research_plan`:
`[k.strip() for k in keywords_text.strip().split('\n') if k.strip()]`. -/
def parseKeywords (keywords_text : String) : List String :=
  ((splitNewlines (pyStrip keywords_text)).map pyStrip).filter (fun k => k ≠ "")

/-- Shallow embedding of `create_research_plan`
(`src/backend/src/agui/tools.py`).  `sources = None` defaults to
`["google", "arxiv"]`.  The oracle is invoked first for keywords
(temperature 0.3) and then for the strategy narrative (temperature 0.5);
an exception escaping either call is caught by the single
`try/except` and reported through the `error` field with empty
`keywords` and `search_steps`.  The first search step uses the first
three keywords; a second step with the remaining keywords exists iff
more than three keywords were parsed. -/
def create_research_plan (llm : LLM) (query : String)
    (sources? : Option (List String)) : PlanResult :=
  let sources := sources?.getD ["google", "arxiv"]
  match llm (keywordPrompt query) (3 / 10) with
  | Except.error e =>
    { query := query, error := some e, keywords := [], search_steps := []
      sources := sources, strategy := none }
  | Except.ok keywords_text =>
    let keywords := parseKeywords keywords_text
    let search_steps :=
      [{ description := "Search for main topic: " ++ query
         keywords := keywords.take 3
         sources := sources : PlanStep }]
        ++ (if keywords.length > 3 then
              [{ description := "Search for specific aspects and details"
                 keywords := keywords.drop 3
                 sources := sources : PlanStep }]
            else [])
    match llm (strategyPrompt query keywords) (1 / 2) with
    | Except.error e =>
      { query := query, error := some e, keywords := [], search_steps := []
        sources := sources, strategy := none }
    | Except.ok strategy =>
      { query := query
        strategy := some (pyStrip strategy)
        keywords := keywords
        search_steps := search_steps
        sources := sources
        error := none }

/-- One raw item returned by the DuckDuckGo provider (`ddgs.text`): a
dict whose `title`, `href` and `body` keys may be absent
(`item.get(..., "")`). -/
structure DDGItem where
  title? : Option String
  href? : Option String
  body? : Option String
deriving Repr, DecidableEq

/-- The `SearchResult` model as constructed by
`DuckDuckGoSearchService.search` (fields visible at the construction
site in `duckduckgo_search.py`). -/
structure SearchResult where
  query_id : String
  source : String
  title : String
  url : String
  snippet : String
deriving Repr, DecidableEq

/-- Oracle modelling the external DuckDuckGo provider `ddgs.text`:
query and `max_results` in, raw item list out, or a provider-level
failure (raised exception). -/
def DDGProvider : Type := String → Nat → Except String (List DDGItem)

/-- Shallow embedding of `DuckDuckGoSearchService.search`
(`src/backend/src/services/duckduckgo_search.py`): calls the provider
with `max_results = min(num_results, 10)`, converts each raw item into
a `SearchResult` with `source = "duckduckgo"`, and re-raises any
provider exception as `"DuckDuckGo Search error: " + cause`. -/
def ddg_search (provider : DDGProvider) (query : String) (query_id : String)
    (num_results : Nat) : Except String (List SearchResult) :=
  match provider query (min num_results 10) with
  | Except.error e => Except.error ("DuckDuckGo Search error: " ++ e)
  | Except.ok items =>
    Except.ok (items.map (fun item =>
      { query_id := query_id
        source := "duckduckgo"
        title := item.title?.getD ""
        url := item.href?.getD ""
        snippet := item.body?.getD "" }))

/-- Shallow embedding of `DuckDuckGoSearchService.search_with_keywords`:
joins the keywords with single spaces and delegates to `search`. -/
def ddg_search_with_keywords (provider : DDGProvider) (query_id : String)
    (keywords : List String) (max_results : Nat) :
    Except String (List SearchResult) :=
  ddg_search provider (String.intercalate " " keywords) query_id max_results

/-- One entry of the `results` list of the `search_google` tool result
(the dict built in its conversion loop). -/
structure ToolResultDict where
  title : String
  url : String
  snippet : String
  source : String
  relevance_score : Option ℚ
deriving Repr, DecidableEq

/-- The dict returned by the `search_google` tool; `error` appears only
on the failure path. -/
structure SearchToolResult where
  query : String
  source : String
  error : Option String
  results_count : Nat
  results : List ToolResultDict
deriving Repr, DecidableEq

/-- The per-result conversion loop of `search_google`
(`tools.py`): each `SearchResult` becomes a plain dict. -/
def toResultDict (score : Option ℚ) (r : SearchResult) : ToolResultDict :=
  { title := r.title, url := r.url, snippet := r.snippet
    source := r.source, relevance_score := score }

/-- Shallow embedding of the `search_google` tool
(`src/backend/src/agui/tools.py`).  The underlying search service is an
oracle returning either a result list or a raised exception; the tool
converts results to dicts and, on failure, catches the exception and
returns a dict with the `error` field set, `results_count = 0` and an
empty `results` list.  (Relevance scores live on a model type not under
`src/`, so each result's score is supplied by the service oracle
alongside the result.) -/
def search_google
    (service : String → Nat → Except String (List (SearchResult × Option ℚ)))
    (query : String) (max_results : Nat) : SearchToolResult :=
  match service query max_results with
  | Except.ok results =>
    { query := query
      source := "google"
      error := none
      results_count := results.length
      results := results.map (fun p => toResultDict p.2 p.1) }
  | Except.error e =>
    { query := query
      source := "google"
      error := some e
      results_count := 0
      results := [] }

/-- Validity of a `ResearchRequest` (`src/backend/src/api/routes.py`):
pydantic declares `content` with `min_length=1, max_length=2000`
(character counts) and `search_sources` with `min_length=1`. -/
def researchRequestValid (content : String) (search_sources : List String) :
    Prop :=
  1 ≤ content.length ∧ content.length ≤ 2000 ∧ 1 ≤ search_sources.length

instance (content : String) (ss : List String) :
    Decidable (researchRequestValid content ss) := by
  unfold researchRequestValid; infer_instance

/-- Shallow embedding of the `/research` route boundary: FastAPI
validates the request body against `ResearchRequest` before the handler
runs, rejecting invalid bodies with a 422 response; only a valid
request reaches `submit_research`, which creates the workflow and
executes the query.  The workflow (the PLANNING stage and everything
after it) is an oracle parameter, so the rejection path provably never
invokes it. -/
def submit_research {α : Type} (workflow : String → List String → α)
    (content : String) (search_sources : List String) : Except Nat α :=
  if researchRequestValid content search_sources then
    Except.ok (workflow content search_sources)
  else
    Except.error 422

/-! ### Helper lemmas -/

/-- `buildEntries` produces one entry per input dict. -/
theorem buildEntries_length (i : Nat) (rs : List ResultDict) :
    (buildEntries i rs).length = rs.length := by
  induction rs generalizing i with
  | nil => rfl
  | cons r rs ih => simp [buildEntries, ih]

/-- The source entry at position `j` of the loop started at index `i`
carries index `i + j` and the fields of the `j`-th input dict, with the
snippet truncated to 200 characters. -/
theorem buildEntries_snd_getElem? (rs : List ResultDict) (i j : Nat) :
    ((buildEntries i rs).map Prod.snd)[j]? =
      rs[j]?.map (fun r =>
        { index := i + j
          title := r.title?.getD "Unknown"
          url := r.url?.getD ""
          snippet := (r.snippet?.getD "").take 200 : SourceEntry }) := by
  induction rs generalizing i j with
  | nil => simp [buildEntries]
  | cons r rs ih =>
    cases j with
    | zero => simp [buildEntries]
    | succ j =>
      have harith : i + 1 + j = i + (j + 1) := by omega
      simp [buildEntries, ih (i + 1) j, harith]

/-- The context part at position `j` of the loop started at index `i`
is `"[i+j] title\ntitle-snippet"` built from the `j`-th input dict's
full (untruncated) snippet. -/
theorem buildEntries_fst_getElem? (rs : List ResultDict) (i j : Nat) :
    ((buildEntries i rs).map Prod.fst)[j]? =
      rs[j]?.map (fun r =>
        "[" ++ toString (i + j) ++ "] " ++ r.title?.getD "Unknown" ++ "\n"
          ++ r.snippet?.getD "") := by
  induction rs generalizing i j with
  | nil => simp [buildEntries]
  | cons r rs ih =>
    cases j with
    | zero => simp [buildEntries]
    | succ j =>
      have harith : i + 1 + j = i + (j + 1) := by omega
      simp [buildEntries, ih (i + 1) j, harith]

/-- The accumulator of `String.intercalate.go` is a prefix of its
result. -/
theorem intercalate_go_acc_eq (sep : String) :
    ∀ (as : List String) (acc : String),
      ∃ post, String.intercalate.go acc sep as = acc ++ post := by
  intro as
  induction as with
  | nil =>
    intro acc
    exact ⟨"", by simp [String.intercalate.go]⟩
  | cons a as ih =>
    intro acc
    obtain ⟨post, h⟩ := ih (acc ++ sep ++ a)
    refine ⟨sep ++ a ++ post, ?_⟩
    simp only [String.intercalate.go]
    rw [h]
    simp [String.append_assoc]

/-- Any member of the list handed to `String.intercalate.go` occurs
inside its result. -/
theorem intercalate_go_contains (sep p : String) :
    ∀ (as : List String) (acc : String), p ∈ as →
      ∃ pre post, String.intercalate.go acc sep as = pre ++ p ++ post := by
  intro as
  induction as with
  | nil => intro acc h; cases h
  | cons a as ih =>
    intro acc h
    rcases List.mem_cons.mp h with heq | hmem
    · subst heq
      obtain ⟨post, hgo⟩ := intercalate_go_acc_eq sep as (acc ++ sep ++ p)
      refine ⟨acc ++ sep, post, ?_⟩
      simp only [String.intercalate.go]
      rw [hgo]
    · obtain ⟨pre, post, hgo⟩ := ih (acc ++ sep ++ a) hmem
      exact ⟨pre, post, by simp [String.intercalate.go, hgo]⟩

/-- Any member of the joined list occurs inside
`String.intercalate sep parts`. -/
theorem intercalate_contains (sep p : String) (parts : List String)
    (h : p ∈ parts) :
    ∃ pre post, String.intercalate sep parts = pre ++ p ++ post := by
  cases parts with
  | nil => cases h
  | cons a as =>
    rcases List.mem_cons.mp h with heq | hmem
    · subst heq
      obtain ⟨post, hgo⟩ := intercalate_go_acc_eq sep as p
      exact ⟨"", post, by simp [String.intercalate, hgo]⟩
    · obtain ⟨pre, post, hgo⟩ := intercalate_go_contains sep p as a hmem
      exact ⟨pre, post, by simp [String.intercalate, hgo]⟩

/-! ### Concrete oracles and data used by the witness theorems -/

/-- An oracle that always succeeds with a fixed answer text. -/
def oracleOk : LLM := fun _ _ => Except.ok "Answer text citing [1]."

/-- An oracle that always succeeds with a two-line keyword response. -/
def oracleTwoKeywords : LLM := fun _ _ => Except.ok "alpha\nbeta"

/-- An oracle that always fails. -/
def oracleFail : LLM := fun _ _ => Except.error "rate limit exceeded"

/-- A sample search-result dict with all keys present. -/
def sampleDict : ResultDict :=
  { title? := some "Battery recycling"
    url? := some "http://x.com/a"
    snippet? := some "Recent advances." }

/-- A DuckDuckGo provider oracle that always fails. -/
def failingProvider : DDGProvider := fun _ _ => Except.error "network timeout"

/-- A Google search service oracle that always fails. -/
def failingService : String → Nat → Except String (List (SearchResult × Option ℚ)) :=
  fun _ _ => Except.error "HTTP 500"

/-! ### Claim theorems -/

/-- C1: for every successful `synthesize_answer` call with a non-empty
`search_results` list, the sources list has one entry per presented
result (`min 10` of them), built from the first ten results in order,
and the entry at 0-based position `j` carries the 1-based index `j + 1`
together with the `j`-th result's fields — so the indices are exactly
the contiguous sequence `1 .. min 10 (number of results)`. -/
theorem synthesize_answer_sources_indexed (llm : LLM) (query text : String)
    (rs : List ResultDict) (j : Nat) (r : ResultDict)
    (hne : rs ≠ [])
    (hok : llm (synthesisPrompt query (synthesisContext rs)) (1 / 2) = Except.ok text)
    (hj : j < 10) (hr : rs[j]? = some r) :
    (synthesize_answer llm query (some rs)).sources.length = min 10 rs.length ∧
    (synthesize_answer llm query (some rs)).sources[j]? =
      some { index := j + 1
             title := r.title?.getD "Unknown"
             url := r.url?.getD ""
             snippet := (r.snippet?.getD "").take 200 } := by
  unfold synthesisContext at hok
  unfold synthesize_answer
  simp only [Option.getD_some, if_neg hne, hok]
  constructor
  · simp [buildEntries_length, List.length_take]
  · rw [buildEntries_snd_getElem?, List.getElem?_take_of_lt hj, hr]
    simp [Nat.add_comm]

/-- Witness for C1 at a concrete one-element result list and an oracle
that succeeds. -/
theorem synthesize_answer_sources_indexed_witness :
    (synthesize_answer oracleOk "q" (some [sampleDict])).sources.length =
      min 10 [sampleDict].length ∧
    (synthesize_answer oracleOk "q" (some [sampleDict])).sources[0]? =
      some { index := 0 + 1
             title := sampleDict.title?.getD "Unknown"
             url := sampleDict.url?.getD ""
             snippet := (sampleDict.snippet?.getD "").take 200 } :=
  synthesize_answer_sources_indexed oracleOk "q" "Answer text citing [1]."
    [sampleDict] 0 sampleDict (List.cons_ne_nil _ _) rfl (by omega) rfl

/-- C2: whenever both text-generation calls succeed,
`create_research_plan` builds a first step from the first three parsed
keywords against all selected backends and a second step (remaining
keywords, same backends) exactly when more than three keywords were
parsed; in particular a two-keyword response yields exactly one step. -/
theorem create_research_plan_steps (llm : LLM) (query kw_text strat : String)
    (sources? : Option (List String))
    (hk : llm (keywordPrompt query) (3 / 10) = Except.ok kw_text)
    (hs : llm (strategyPrompt query (parseKeywords kw_text)) (1 / 2) = Except.ok strat) :
    (create_research_plan llm query sources?).search_steps =
      [{ description := "Search for main topic: " ++ query
         keywords := (parseKeywords kw_text).take 3
         sources := sources?.getD ["google", "arxiv"] }]
        ++ (if (parseKeywords kw_text).length > 3 then
              [{ description := "Search for specific aspects and details"
                 keywords := (parseKeywords kw_text).drop 3
                 sources := sources?.getD ["google", "arxiv"] }]
            else []) ∧
    ((parseKeywords kw_text).length = 2 →
      (create_research_plan llm query sources?).search_steps.length = 1) := by
  constructor
  · unfold create_research_plan
    simp only [hk, hs]
  · intro h2
    unfold create_research_plan
    simp only [hk, hs]
    simp [h2]

/-- Witness for C2 at an oracle returning the two-line keyword response
`"alpha\nbeta"`: the plan has exactly one search step. -/
theorem create_research_plan_steps_witness :
    (create_research_plan oracleTwoKeywords "q" none).search_steps.length = 1 := by
  have h := create_research_plan_steps oracleTwoKeywords "q" "alpha\nbeta"
    "alpha\nbeta" none rfl rfl
  exact h.2 (by decide)

/-- C3: with an absent or empty `search_results` list,
`synthesize_answer` returns the fixed "no information found" result
with an empty sources list.  The right-hand side does not mention the
oracle `llm`, so the short-circuit provably never invokes the
text-generation capability, and the function returns normally rather
than failing. -/
theorem synthesize_answer_empty_short_circuit (llm : LLM) (query : String)
    (srs : Option (List ResultDict)) (h : srs = none ∨ srs = some []) :
    synthesize_answer llm query srs =
      { query := query
        error := some "No search results provided"
        content := "I couldn't find relevant information to answer your question."
        sources := []
        sources_count := none
        confidence := none } := by
  rcases h with h | h <;> subst h <;> rfl

/-- Witness for C3 at an absent result list and an always-failing
oracle: the fixed result is still produced, so the oracle is not
consulted. -/
theorem synthesize_answer_empty_short_circuit_witness :
    synthesize_answer oracleFail "q" none =
      { query := "q"
        error := some "No search results provided"
        content := "I couldn't find relevant information to answer your question."
        sources := []
        sources_count := none
        confidence := none } :=
  synthesize_answer_empty_short_circuit oracleFail "q" none (Or.inl rfl)

/-- C4: when the text-generation capability fails, `synthesize_answer`
returns the failure result whose `error` field carries the underlying
cause (the tool-result failure channel standing for `SynthesisFailed`),
with no sources, no confidence and no sources count — the fallback
content is flagged by the error, never substituted silently. -/
theorem synthesize_answer_failure_reported (llm : LLM) (query e : String)
    (rs : List ResultDict) (hne : rs ≠ [])
    (herr : llm (synthesisPrompt query (synthesisContext rs)) (1 / 2) = Except.error e) :
    synthesize_answer llm query (some rs) =
      { query := query
        error := some e
        content := "An error occurred while synthesizing the answer."
        sources := []
        sources_count := none
        confidence := none } := by
  unfold synthesisContext at herr
  unfold synthesize_answer
  simp only [Option.getD_some, if_neg hne, herr]

/-- Witness for C4 at a concrete failing oracle. -/
theorem synthesize_answer_failure_reported_witness :
    synthesize_answer oracleFail "q" (some [sampleDict]) =
      { query := "q"
        error := some "rate limit exceeded"
        content := "An error occurred while synthesizing the answer."
        sources := []
        sources_count := none
        confidence := none } :=
  synthesize_answer_failure_reported oracleFail "q" "rate limit exceeded"
    [sampleDict] (List.cons_ne_nil _ _) rfl

/-- C5: if the text-generation capability fails at the keyword call, or
succeeds there and fails at the strategy call, `create_research_plan`
returns the all-or-nothing failure result: the `error` field carries
the underlying cause and both `keywords` and `search_steps` are empty —
never a partial plan. -/
theorem create_research_plan_all_or_nothing (llm : LLM)
    (query kw_text e : String) (sources? : Option (List String))
    (h : llm (keywordPrompt query) (3 / 10) = Except.error e ∨
         (llm (keywordPrompt query) (3 / 10) = Except.ok kw_text ∧
          llm (strategyPrompt query (parseKeywords kw_text)) (1 / 2) = Except.error e)) :
    create_research_plan llm query sources? =
      { query := query
        error := some e
        keywords := []
        search_steps := []
        sources := sources?.getD ["google", "arxiv"]
        strategy := none } := by
  rcases h with h | ⟨hk, hs⟩
  · unfold create_research_plan
    simp only [h]
  · unfold create_research_plan
    simp only [hk, hs]

/-- Witness for C5 at a concrete oracle failing on the keyword call. -/
theorem create_research_plan_all_or_nothing_witness :
    create_research_plan oracleFail "q" none =
      { query := "q"
        error := some "rate limit exceeded"
        keywords := []
        search_steps := []
        sources := ["google", "arxiv"]
        strategy := none } :=
  create_research_plan_all_or_nothing oracleFail "q" "" "rate limit exceeded"
    none (Or.inl rfl)

/-- C6: on provider failure the DuckDuckGo backend fails with an error
message carrying the backend identifier and the underlying cause and in
particular never returns an (empty) result list; the `search_google`
tool wrapper likewise reports the cause through its `error` field
rather than silently returning its empty `results` list. -/
theorem backend_failure_not_silent (provider : DDGProvider)
    (service : String → Nat → Except String (List (SearchResult × Option ℚ)))
    (query query_id e₁ e₂ : String) (n m : Nat)
    (hprov : provider query (min n 10) = Except.error e₁)
    (hserv : service query m = Except.error e₂) :
    ddg_search provider query query_id n =
      Except.error ("DuckDuckGo Search error: " ++ e₁) ∧
    ddg_search provider query query_id n ≠ Except.ok [] ∧
    (search_google service query m).error = some e₂ ∧
    (search_google service query m).results = [] := by
  refine ⟨?_, ?_, ?_, ?_⟩
  · unfold ddg_search
    simp only [hprov]
  · unfold ddg_search
    simp only [hprov]
    simp
  · unfold search_google
    simp only [hserv]
  · unfold search_google
    simp only [hserv]

/-- Witness for C6 at concrete failing provider and service oracles. -/
theorem backend_failure_not_silent_witness :
    ddg_search failingProvider "battery recycling" "qid" 10 =
      Except.error ("DuckDuckGo Search error: " ++ "network timeout") ∧
    ddg_search failingProvider "battery recycling" "qid" 10 ≠ Except.ok [] ∧
    (search_google failingService "battery recycling" 5).error = some "HTTP 500" ∧
    (search_google failingService "battery recycling" 5).results = [] :=
  backend_failure_not_silent failingProvider failingService "battery recycling"
    "qid" "network timeout" "HTTP 500" 10 5 rfl rfl

/-- C7: a research request with an empty question, a question longer
than 2000 characters, or an empty backend selection is rejected with a
422 validation error.  The workflow argument is universally quantified
and absent from the right-hand side, so the PLANNING stage (and
everything after it) provably never runs on the rejection path. -/
theorem invalid_request_rejected {α : Type} (workflow : String → List String → α)
    (content : String) (sources : List String)
    (h : content = "" ∨ 2000 < content.length ∨ sources = []) :
    submit_research workflow content sources = Except.error 422 := by
  unfold submit_research
  rw [if_neg]
  rintro ⟨h1, h2, h3⟩
  rcases h with h | h | h
  · subst h; simp at h1
  · omega
  · subst h; simp at h3

/-- Witness for C7 at a concrete empty question. -/
theorem invalid_request_rejected_witness :
    submit_research (fun _ _ => (0 : Nat)) "" ["google"] = Except.error 422 :=
  invalid_request_rejected (fun _ _ => (0 : Nat)) "" ["google"] (Or.inl rfl)

/-- C8: `search_with_keywords` returns exactly what `search` returns on
the single query string obtained by joining the keywords with
single-space separators, with the same limit — for every provider,
query id, keyword list and limit. -/
theorem search_with_keywords_joins (provider : DDGProvider) (query_id : String)
    (keywords : List String) (max_results : Nat) :
    ddg_search_with_keywords provider query_id keywords max_results =
      ddg_search provider (String.intercalate " " keywords) query_id max_results :=
  rfl

/-- C9: every successful `synthesize_answer` call with a non-empty
result list returns the one fixed confidence constant `0.85`, which
lies in `[0, 1]`; the value is the same for every question, result list
and generated text. -/
theorem synthesize_answer_confidence_fixed (llm : LLM) (query text : String)
    (rs : List ResultDict) (hne : rs ≠ [])
    (hok : llm (synthesisPrompt query (synthesisContext rs)) (1 / 2) = Except.ok text) :
    (synthesize_answer llm query (some rs)).confidence = some (85 / 100) ∧
    (0 : ℚ) ≤ 85 / 100 ∧ (85 / 100 : ℚ) ≤ 1 := by
  refine ⟨?_, by norm_num, by norm_num⟩
  unfold synthesisContext at hok
  unfold synthesize_answer
  simp only [Option.getD_some, if_neg hne, hok]

/-- Witness for C9 at a concrete succeeding oracle. -/
theorem synthesize_answer_confidence_fixed_witness :
    (synthesize_answer oracleOk "q" (some [sampleDict])).confidence =
      some (85 / 100) ∧
    (0 : ℚ) ≤ 85 / 100 ∧ (85 / 100 : ℚ) ≤ 1 :=
  synthesize_answer_confidence_fixed oracleOk "q" "Answer text citing [1]."
    [sampleDict] (List.cons_ne_nil _ _) rfl

/-- C10: on every successful `synthesize_answer` call, the source entry
for the `j`-th presented result carries the first 200 characters of
that result's snippet (hence at most 200 characters), while the prompt
passed to the text-generation capability contains the result's full
snippet (inside the context block). -/
theorem synthesize_answer_snippet_truncated (llm : LLM) (query text : String)
    (rs : List ResultDict) (j : Nat) (r : ResultDict)
    (hne : rs ≠ [])
    (hok : llm (synthesisPrompt query (synthesisContext rs)) (1 / 2) = Except.ok text)
    (hj : j < 10) (hr : rs[j]? = some r) :
    ((synthesize_answer llm query (some rs)).sources[j]?.map SourceEntry.snippet) =
      some ((r.snippet?.getD "").take 200) ∧
    ((r.snippet?.getD "").take 200).length ≤ 200 ∧
    (∃ pre post,
      synthesisPrompt query (synthesisContext rs) =
        pre ++ r.snippet?.getD "" ++ post) := by
  refine ⟨?_, ?_, ?_⟩
  · unfold synthesisContext at hok
    unfold synthesize_answer
    simp only [Option.getD_some, if_neg hne, hok]
    rw [buildEntries_snd_getElem?, List.getElem?_take_of_lt hj, hr]
    simp
  · rw [String.take_eq, String.length_mk, List.length_take]
    omega
  · have hmem : ("[" ++ toString (1 + j) ++ "] " ++ r.title?.getD "Unknown" ++ "\n"
        ++ r.snippet?.getD "") ∈ (buildEntries 1 (rs.take 10)).map Prod.fst := by
      have hel := buildEntries_fst_getElem? (rs.take 10) 1 j
      rw [List.getElem?_take_of_lt hj, hr] at hel
      exact List.getElem?_mem hel
    obtain ⟨pre, post, hctx⟩ :=
      intercalate_contains "\n\n"
        ("[" ++ toString (1 + j) ++ "] " ++ r.title?.getD "Unknown" ++ "\n"
          ++ r.snippet?.getD "")
        ((buildEntries 1 (rs.take 10)).map Prod.fst) hmem
    unfold synthesisContext synthesisPrompt
    rw [hctx]
    refine ⟨"Based on the following search results, provide a comprehensive answer to the research question.\nInclude citations using [n] format to reference the sources.\n\nResearch Question: "
        ++ query ++ "\n\nSearch Results:\n" ++ pre
        ++ ("[" ++ toString (1 + j) ++ "] " ++ r.title?.getD "Unknown" ++ "\n"),
      post ++ "\n\nProvide a well-structured answer with:\n1. A clear introduction\n2. Main findings and details\n3. A brief conclusion\n4. Use [n] citations to reference sources\n\nAnswer:", ?_⟩
    simp [String.append_assoc]

/-- Witness for C10 at a concrete one-element result list and a
succeeding oracle. -/
theorem synthesize_answer_snippet_truncated_witness :
    ((synthesize_answer oracleOk "q" (some [sampleDict])).sources[0]?.map
        SourceEntry.snippet) =
      some ((sampleDict.snippet?.getD "").take 200) ∧
    ((sampleDict.snippet?.getD "").take 200).length ≤ 200 ∧
    (∃ pre post,
      synthesisPrompt "q" (synthesisContext [sampleDict]) =
        pre ++ sampleDict.snippet?.getD "" ++ post) :=
  synthesize_answer_snippet_truncated oracleOk "q" "Answer text citing [1]."
    [sampleDict] 0 sampleDict (List.cons_ne_nil _ _) rfl (by omega) rfl

end DeepResearch
